import Mathlib

/-!
Verification of the TLS handshake state tracker
(`src/tls/tls_handshake_state.cpp`): the handshake-type bitmask, the
transition tracker, PRF selection, signature hash negotiation and the
session-ticket query, embedded as executable Lean definitions.
-/

/-- The handshake message kinds enumerated by the transition tracker's
bitmask switch (`bitmask_for_handshake_type`). -/
inductive Handshake_Type where
  | HELLO_VERIFY_REQUEST
  | HELLO_REQUEST
  | CLIENT_HELLO
  | CLIENT_HELLO_SSLV2
  | SERVER_HELLO
  | CERTIFICATE
  | CERTIFICATE_URL
  | CERTIFICATE_STATUS
  | SERVER_KEX
  | CERTIFICATE_REQUEST
  | SERVER_HELLO_DONE
  | CERTIFICATE_VERIFY
  | CLIENT_KEX
  | NEXT_PROTOCOL
  | NEW_SESSION_TICKET
  | HANDSHAKE_CCS
  | FINISHED
  | HANDSHAKE_NONE
deriving DecidableEq, Fintype, Repr

/-- Embedding of `bitmask_for_handshake_type` (tls_handshake_state.cpp,
lines 19-81): each kind maps to a single bit; both client hello styles
share bit 2; `HANDSHAKE_NONE` maps to the empty mask. The switch covers
every enumerator, so the trailing `throw Internal_Error` is unreachable
for values of the enumeration and the embedding is total. -/
def bitmask_for_handshake_type : Handshake_Type → Nat
  | .HELLO_VERIFY_REQUEST => 1 <<< 0
  | .HELLO_REQUEST => 1 <<< 1
  | .CLIENT_HELLO => 1 <<< 2
  | .CLIENT_HELLO_SSLV2 => 1 <<< 2
  | .SERVER_HELLO => 1 <<< 3
  | .CERTIFICATE => 1 <<< 4
  | .CERTIFICATE_URL => 1 <<< 5
  | .CERTIFICATE_STATUS => 1 <<< 6
  | .SERVER_KEX => 1 <<< 7
  | .CERTIFICATE_REQUEST => 1 <<< 8
  | .SERVER_HELLO_DONE => 1 <<< 9
  | .CERTIFICATE_VERIFY => 1 <<< 10
  | .CLIENT_KEX => 1 <<< 11
  | .NEXT_PROTOCOL => 1 <<< 12
  | .NEW_SESSION_TICKET => 1 <<< 13
  | .HANDSHAKE_CCS => 1 <<< 14
  | .FINISHED => 1 <<< 15
  | .HANDSHAKE_NONE => 0

/-- Modelled from the spec: the protocol versions distinguished by the
negotiator (`Protocol_Version` lives in tls_version.h, outside this file
set). The spec lists SSLv3, TLS 1.0/1.1/1.2 and DTLS 1.0/1.2; the real
class wraps arbitrary wire bytes, so a constructor for unrecognized
version codes is included. -/
inductive Protocol_Version where
  | SSL_V3
  | TLS_V10
  | TLS_V11
  | TLS_V12
  | DTLS_V10
  | DTLS_V12
  | Unknown (major minor : Nat)
deriving DecidableEq, Repr

/-- Modelled from the spec: `supports_ciphersuite_specific_prf` is true
only at TLS1.2+/DTLS1.2+. -/
def Protocol_Version.supports_ciphersuite_specific_prf : Protocol_Version → Bool
  | .TLS_V12 => true
  | .DTLS_V12 => true
  | _ => false

/-- Modelled from the spec: `supports_negotiable_signature_algorithms`
is true only at TLS1.2+/DTLS1.2+. -/
def Protocol_Version.supports_negotiable_signature_algorithms : Protocol_Version → Bool
  | .TLS_V12 => true
  | .DTLS_V12 => true
  | _ => false

/-- The errors thrown by the embedded functions. `Unexpected_Message`
carries what the thrown string reports: the received kind and the
expecting/received masks. The others carry their message strings. -/
inductive TLS_Error where
  | Unexpected_Message (kind : Handshake_Type) (expecting : Nat) (received : Nat)
  | Decoding_Error (msg : String)
  | Internal_Error (msg : String)
  | Invalid_Argument (msg : String)
deriving DecidableEq, Repr

/-- The transition tracker's state: the two bitmasks of
`Handshake_State` (tls_handshake_state.h). -/
structure Handshake_Transition_State where
  m_hand_expecting_mask : Nat
  m_hand_received_mask : Nat
deriving DecidableEq, Repr

/-- Embedding of `Handshake_State::confirm_transition_to` (lines
166-185). The received mask is updated before the overlap check, so the
returned state reflects the update even when the call fails; the second
component is the thrown error, if any. -/
def confirm_transition_to (st : Handshake_Transition_State)
    (handshake_msg : Handshake_Type) :
    Handshake_Transition_State × Option TLS_Error :=
  let mask := bitmask_for_handshake_type handshake_msg
  let received := st.m_hand_received_mask ||| mask
  if (st.m_hand_expecting_mask &&& mask) ≠ 0 then
    ({ m_hand_expecting_mask := 0, m_hand_received_mask := received }, none)
  else
    ({ st with m_hand_received_mask := received },
     some (TLS_Error.Unexpected_Message handshake_msg st.m_hand_expecting_mask received))

/-- Embedding of `Handshake_State::set_expected_next` (lines 187-190). -/
def set_expected_next (st : Handshake_Transition_State)
    (handshake_msg : Handshake_Type) : Handshake_Transition_State :=
  { st with m_hand_expecting_mask :=
      st.m_hand_expecting_mask ||| bitmask_for_handshake_type handshake_msg }

/-- Embedding of `Handshake_State::received_handshake_msg` (lines
192-197). -/
def received_handshake_msg (st : Handshake_Transition_State)
    (handshake_msg : Handshake_Type) : Bool :=
  (st.m_hand_received_mask &&& bitmask_for_handshake_type handshake_msg) != 0

/-- The negotiated cipher suite, reduced to the accessor the embedded
functions read (`suite.mac_algo()`). -/
structure Ciphersuite where
  mac_algo : String
deriving DecidableEq, Repr

/-- Embedding of `Handshake_State::protocol_specific_prf` (lines
215-235), returning the KDF name passed to `get_kdf`. The if/else-if/else
chain returns on every path, so the trailing
`throw Internal_Error("Unknown version code")` is unreachable; the
codomain keeps the error alternative to make that statable. -/
def protocol_specific_prf (version : Protocol_Version) (suite : Ciphersuite) :
    Except TLS_Error String :=
  if version = .SSL_V3 then
    .ok "SSL3-PRF"
  else if version.supports_ciphersuite_specific_prf then
    if suite.mac_algo = "MD5" ∨ suite.mac_algo = "SHA-1" then
      .ok "TLS-12-PRF(SHA-256)"
    else
      .ok ("TLS-12-PRF(" ++ suite.mac_algo ++ ")")
  else
    .ok "TLS-PRF"

/-- Does some advertised `(hash, sig)` pair name `hash` together with
`sig_algo`? This is the inner loop of `choose_hash` (lines 277-281). -/
def supports_pair (supported_algos : List (String × String))
    (hash sig_algo : String) : Bool :=
  supported_algos.any (fun algo => algo.1 == hash && algo.2 == sig_algo)

/-- The nested loops of `choose_hash` (lines 275-282): the first hash in
`hashes` (local preference order) for which some advertised pair names it
with `sig_algo`. -/
def first_supported_hash (hashes : List String)
    (supported_algos : List (String × String)) (sig_algo : String) :
    Option String :=
  match hashes with
  | [] => none
  | hash :: rest =>
    if supports_pair supported_algos hash sig_algo then some hash
    else first_supported_hash rest supported_algos sig_algo

/-- Embedding of the internal `choose_hash` (lines 239-287).
`allowed_signature_hashes` is `policy.allowed_signature_hashes()`;
`client_hello_algos` and `cert_req_algos` are the `supported_algos()`
lists of the stored ClientHello and CertificateRequest. -/
def choose_hash (sig_algo : String) (negotiated_version : Protocol_Version)
    (allowed_signature_hashes : List String) (for_client_auth : Bool)
    (client_hello_algos : List (String × String))
    (cert_req_algos : List (String × String)) : Except TLS_Error String :=
  if !negotiated_version.supports_negotiable_signature_algorithms then
    if for_client_auth && (negotiated_version == .SSL_V3) then
      .ok "Raw"
    else if sig_algo = "RSA" then
      .ok "TLS.Digest.0"
    else if sig_algo = "DSA" then
      .ok "SHA-1"
    else if sig_algo = "ECDSA" then
      .ok "SHA-1"
    else
      .error (.Internal_Error ("Unknown TLS signature algo " ++ sig_algo))
  else
    let supported_algos := if for_client_auth then cert_req_algos else client_hello_algos
    if !supported_algos.isEmpty then
      match first_supported_hash allowed_signature_hashes supported_algos sig_algo with
      | some hash => .ok hash
      | none => .ok "SHA-1"
    else
      .ok "SHA-1"

/-- The two signature encodings used for TLS signatures. -/
inductive Signature_Format where
  | IEEE_1363
  | DER_SEQUENCE
deriving DecidableEq, Repr

/-- Embedding of the tail of `Handshake_State::understand_sig_format`
(lines 360-391): the per-key-algorithm hash fixups and padding/format
construction, reached after the version/wire-consistency checks. -/
def understand_sig_format_rest (version : Protocol_Version)
    (algo_name hash_algo : String) (for_client_auth : Bool) :
    Except TLS_Error (String × Signature_Format) :=
  if algo_name = "RSA" then
    let hash_algo :=
      if for_client_auth && (version == .SSL_V3) then "Raw"
      else if !version.supports_negotiable_signature_algorithms then "TLS.Digest.0"
      else hash_algo
    .ok ("EMSA3(" ++ hash_algo ++ ")", .IEEE_1363)
  else if algo_name = "DSA" ∨ algo_name = "ECDSA" then
    let hash_algo :=
      if (algo_name == "DSA") && for_client_auth && (version == .SSL_V3) then "Raw"
      else if !version.supports_negotiable_signature_algorithms then "SHA-1"
      else hash_algo
    .ok ("EMSA1(" ++ hash_algo ++ ")", .DER_SEQUENCE)
  else
    .error (.Invalid_Argument (algo_name ++ " is invalid/unknown for TLS signatures"))

/-- Embedding of `Handshake_State::understand_sig_format` (lines
330-391). `algo_name` is `key->algo_name()`; `hash_algo` and `sig_algo`
are the wire-declared identifiers. -/
def understand_sig_format (version : Protocol_Version) (algo_name : String)
    (hash_algo sig_algo : String) (for_client_auth : Bool) :
    Except TLS_Error (String × Signature_Format) :=
  if version.supports_negotiable_signature_algorithms then
    if hash_algo = "" then
      .error (.Decoding_Error "Counterparty did not send hash/sig IDS")
    else if sig_algo ≠ algo_name then
      .error (.Decoding_Error "Counterparty sent inconsistent key and sig types")
    else
      understand_sig_format_rest version algo_name hash_algo for_client_auth
  else
    if hash_algo ≠ "" ∨ sig_algo ≠ "" then
      .error (.Decoding_Error "Counterparty sent hash/sig IDs with old version")
    else
      understand_sig_format_rest version algo_name hash_algo for_client_auth

/-- The accessors of a stored ClientHello read by the embedded
functions. -/
structure Client_Hello where
  session_ticket : List Nat
deriving DecidableEq, Repr

/-- The accessor of a stored NewSessionTicket read by the embedded
functions. -/
structure New_Session_Ticket where
  ticket : List Nat
deriving DecidableEq, Repr

/-- Embedding of `Handshake_State::session_ticket` (lines 207-213).
`none` models the precondition violation of dereferencing an absent
ClientHello slot. -/
def session_ticket (m_new_session_ticket : Option New_Session_Ticket)
    (m_client_hello : Option Client_Hello) : Option (List Nat) :=
  match m_new_session_ticket with
  | some nst =>
    if !nst.ticket.isEmpty then some nst.ticket
    else m_client_hello.map Client_Hello.session_ticket
  | none => m_client_hello.map Client_Hello.session_ticket

/-! ## Helper lemmas -/

theorem nat_or_and_self (a b : Nat) : (a ||| b) &&& b = b := by
  apply Nat.eq_of_testBit_eq
  intro i
  simp only [Nat.testBit_and, Nat.testBit_or]
  cases a.testBit i <;> cases b.testBit i <;> rfl

theorem mask_ne_zero_of_overlap {e m : Nat} (h : e &&& m ≠ 0) : m ≠ 0 := by
  intro hm
  subst hm
  exact h (Nat.and_zero e)

/-! ## Transition tracker -/

/-- Claim C1: `confirm_transition_to k` succeeds exactly when `k`'s
bitmask intersects the expecting mask; on success it ORs `k`'s bit into
the received mask (making `received_handshake_msg k` true) and clears
the expecting mask, which stays empty under further
`confirm_transition_to` calls; on failure the reported error carries the
received kind, the expecting mask, and the (updated) received mask. -/
theorem confirm_transition_to_spec (st : Handshake_Transition_State)
    (k : Handshake_Type) :
    ((confirm_transition_to st k).2 = none ↔
      st.m_hand_expecting_mask &&& bitmask_for_handshake_type k ≠ 0)
    ∧ (st.m_hand_expecting_mask &&& bitmask_for_handshake_type k ≠ 0 →
        (confirm_transition_to st k).1.m_hand_received_mask
            = st.m_hand_received_mask ||| bitmask_for_handshake_type k
        ∧ received_handshake_msg (confirm_transition_to st k).1 k = true
        ∧ (confirm_transition_to st k).1.m_hand_expecting_mask = 0)
    ∧ (∀ s : Handshake_Transition_State, s.m_hand_expecting_mask = 0 →
        ∀ n : Handshake_Type,
          (confirm_transition_to s n).1.m_hand_expecting_mask = 0)
    ∧ (st.m_hand_expecting_mask &&& bitmask_for_handshake_type k = 0 →
        (confirm_transition_to st k).2
          = some (TLS_Error.Unexpected_Message k st.m_hand_expecting_mask
              (st.m_hand_received_mask ||| bitmask_for_handshake_type k))) := by
  refine ⟨?_, ?_, ?_, ?_⟩
  · by_cases h : st.m_hand_expecting_mask &&& bitmask_for_handshake_type k ≠ 0 <;>
      simp [confirm_transition_to, h]
  · intro h
    refine ⟨?_, ?_, ?_⟩ <;>
      simp [confirm_transition_to, h, received_handshake_msg, nat_or_and_self,
        mask_ne_zero_of_overlap h]
  · intro s hs n
    by_cases h : s.m_hand_expecting_mask &&& bitmask_for_handshake_type n ≠ 0 <;>
      simp [confirm_transition_to, h, hs]
  · intro h
    simp [confirm_transition_to, h]

theorem confirm_transition_to_spec_witness :
    (⟨4, 0⟩ : Handshake_Transition_State).m_hand_expecting_mask
        &&& bitmask_for_handshake_type .CLIENT_HELLO ≠ 0
    ∧ received_handshake_msg
        (confirm_transition_to ⟨4, 0⟩ .CLIENT_HELLO).1 .CLIENT_HELLO = true :=
  ⟨by decide,
   ((confirm_transition_to_spec ⟨4, 0⟩ .CLIENT_HELLO).2.1 (by decide)).2.1⟩

/-- Claim C6: the bitmask mapping is injective on all kinds except that
the two client-hello styles share a bit, and `HANDSHAKE_NONE` maps to
the empty mask. -/
theorem bitmask_for_handshake_type_injective :
    (∀ a b : Handshake_Type,
      bitmask_for_handshake_type a = bitmask_for_handshake_type b →
        a = b ∨ ((a = .CLIENT_HELLO ∨ a = .CLIENT_HELLO_SSLV2)
          ∧ (b = .CLIENT_HELLO ∨ b = .CLIENT_HELLO_SSLV2)))
    ∧ bitmask_for_handshake_type .CLIENT_HELLO
        = bitmask_for_handshake_type .CLIENT_HELLO_SSLV2
    ∧ bitmask_for_handshake_type .HANDSHAKE_NONE = 0 := by
  refine ⟨?_, rfl, rfl⟩
  decide

theorem bitmask_for_handshake_type_injective_witness :
    Handshake_Type.CLIENT_HELLO = Handshake_Type.CLIENT_HELLO_SSLV2
    ∨ ((Handshake_Type.CLIENT_HELLO = Handshake_Type.CLIENT_HELLO
          ∨ Handshake_Type.CLIENT_HELLO = Handshake_Type.CLIENT_HELLO_SSLV2)
        ∧ (Handshake_Type.CLIENT_HELLO_SSLV2 = Handshake_Type.CLIENT_HELLO
          ∨ Handshake_Type.CLIENT_HELLO_SSLV2 = Handshake_Type.CLIENT_HELLO_SSLV2)) :=
  bitmask_for_handshake_type_injective.1 .CLIENT_HELLO .CLIENT_HELLO_SSLV2 rfl

/-- Claim C9 counterexample: `HANDSHAKE_NONE` has the empty bitmask, so
its bit never intersects the expecting mask and the call fails, yet
`received_handshake_msg HANDSHAKE_NONE` is still false afterwards — the
claim's universal statement fails at this kind. -/
theorem confirm_transition_to_none_cex :
    bitmask_for_handshake_type .HANDSHAKE_NONE
        &&& (⟨0, 0⟩ : Handshake_Transition_State).m_hand_expecting_mask = 0
    ∧ (confirm_transition_to ⟨0, 0⟩ .HANDSHAKE_NONE).2.isSome = true
    ∧ received_handshake_msg
        (confirm_transition_to ⟨0, 0⟩ .HANDSHAKE_NONE).1 .HANDSHAKE_NONE = false :=
  ⟨rfl, rfl, rfl⟩

/-- Claim C9 (amended): for every kind with a nonzero bitmask whose bit
does not intersect the expecting mask, the failing call has already ORed
the bit into the received mask before reporting the error, so
`received_handshake_msg` returns true for the rejected kind. -/
theorem confirm_transition_to_not_atomic (st : Handshake_Transition_State)
    (k : Handshake_Type)
    (hmask : bitmask_for_handshake_type k ≠ 0)
    (hno : st.m_hand_expecting_mask &&& bitmask_for_handshake_type k = 0) :
    (∃ e, (confirm_transition_to st k).2 = some e)
    ∧ (confirm_transition_to st k).1.m_hand_received_mask
        = st.m_hand_received_mask ||| bitmask_for_handshake_type k
    ∧ received_handshake_msg (confirm_transition_to st k).1 k = true := by
  refine ⟨?_, ?_, ?_⟩ <;>
    simp [confirm_transition_to, hno, received_handshake_msg, nat_or_and_self, hmask]

theorem confirm_transition_to_not_atomic_witness :
    received_handshake_msg
      (confirm_transition_to ⟨0, 0⟩ .SERVER_HELLO).1 .SERVER_HELLO = true :=
  (confirm_transition_to_not_atomic ⟨0, 0⟩ .SERVER_HELLO
    (by decide) (by decide)).2.2

/-! ## PRF selection -/

/-- Claim C2: `protocol_specific_prf` yields SSL3-PRF for SSLv3; under a
version with per-ciphersuite PRF it yields TLS-12-PRF of the suite MAC
with MD5/SHA-1 overridden to SHA-256; and for TLS1.0/1.1/DTLS1.0 it
yields the shared TLS-PRF regardless of suite. -/
theorem protocol_specific_prf_spec (v : Protocol_Version) (suite : Ciphersuite) :
    (v = .SSL_V3 → protocol_specific_prf v suite = .ok "SSL3-PRF")
    ∧ (v.supports_ciphersuite_specific_prf = true →
        ((suite.mac_algo = "MD5" ∨ suite.mac_algo = "SHA-1") →
          protocol_specific_prf v suite = .ok "TLS-12-PRF(SHA-256)")
        ∧ (suite.mac_algo ≠ "MD5" → suite.mac_algo ≠ "SHA-1" →
          protocol_specific_prf v suite
            = .ok ("TLS-12-PRF(" ++ suite.mac_algo ++ ")")))
    ∧ ((v = .TLS_V10 ∨ v = .TLS_V11 ∨ v = .DTLS_V10) →
        protocol_specific_prf v suite = .ok "TLS-PRF") := by
  refine ⟨?_, ?_, ?_⟩
  · intro h
    subst h
    rfl
  · intro h
    have hv : v ≠ .SSL_V3 := by
      intro hv
      subst hv
      exact absurd h (by decide)
    constructor
    · intro hmac
      simp [protocol_specific_prf, hv, h, hmac]
    · intro h1 h2
      simp [protocol_specific_prf, hv, h, h1, h2]
  · intro h
    rcases h with h | h | h <;> subst h <;> rfl

theorem protocol_specific_prf_spec_witness :
    protocol_specific_prf .TLS_V12 ⟨"SHA-384"⟩
      = .ok ("TLS-12-PRF(" ++ "SHA-384" ++ ")") :=
  ((protocol_specific_prf_spec .TLS_V12 ⟨"SHA-384"⟩).2.1 rfl).2
    (by decide) (by decide)

/-- Claim C8: the internal-error path of `protocol_specific_prf` is
unreachable. A version that is neither SSLv3, nor one supporting
per-ciphersuite PRF, nor TLS1.0/1.1/DTLS1.0 falls into the catch-all
branch and yields the shared TLS-PRF instead of the fatal internal error
the trailing throw was meant to raise. -/
theorem protocol_specific_prf_unknown_version :
    protocol_specific_prf (.Unknown 100 100) ⟨"SHA-256"⟩ = .ok "TLS-PRF"
    ∧ (Protocol_Version.Unknown 100 100) ≠ .SSL_V3
    ∧ (Protocol_Version.Unknown 100 100).supports_ciphersuite_specific_prf = false :=
  ⟨rfl, by decide, rfl⟩

/-! ## Signature hash negotiation -/

theorem first_supported_hash_split (pre : List String) (h : String)
    (post : List String) (supported : List (String × String)) (sig : String)
    (hh : supports_pair supported h sig = true)
    (hpre : ∀ x ∈ pre, supports_pair supported x sig = false) :
    first_supported_hash (pre ++ h :: post) supported sig = some h := by
  induction pre with
  | nil => simp [first_supported_hash, hh]
  | cons a rest ih =>
    have ha := hpre a (by simp)
    simp [first_supported_hash, ha]
    exact ih (fun x hx => hpre x (by simp [hx]))

theorem first_supported_hash_none (hashes : List String)
    (supported : List (String × String)) (sig : String)
    (hnm : ∀ x ∈ hashes, supports_pair supported x sig = false) :
    first_supported_hash hashes supported sig = none := by
  induction hashes with
  | nil => rfl
  | cons a rest ih =>
    have ha := hnm a (by simp)
    simp [first_supported_hash, ha]
    exact ih (fun x hx => hnm x (by simp [hx]))

/-- Claim C3: under a version with negotiable signature algorithms, with
a non-empty advertised pair list, `choose_hash` returns the first hash
in local-policy order for which an advertised pair names that hash with
the requested signature algorithm; with an empty advertised list it
returns SHA-1 regardless of policy. -/
theorem choose_hash_negotiable (sig_algo : String) (v : Protocol_Version)
    (hashes : List String) (fca : Bool)
    (ch cr : List (String × String))
    (hv : v.supports_negotiable_signature_algorithms = true) :
    ((if fca then cr else ch) ≠ [] →
      ∀ pre h post, hashes = pre ++ h :: post →
        supports_pair (if fca then cr else ch) h sig_algo = true →
        (∀ x ∈ pre, supports_pair (if fca then cr else ch) x sig_algo = false) →
        choose_hash sig_algo v hashes fca ch cr = Except.ok h)
    ∧ ((if fca then cr else ch) = [] →
        choose_hash sig_algo v hashes fca ch cr = Except.ok "SHA-1") := by
  constructor
  · intro hne pre h post hsplit hh hpre
    subst hsplit
    simp [choose_hash, hv, List.isEmpty_iff, hne,
      first_supported_hash_split pre h post _ sig_algo hh hpre]
  · intro he
    simp [choose_hash, hv, List.isEmpty_iff, he]

theorem choose_hash_negotiable_witness :
    choose_hash "RSA" .TLS_V12 ["SHA-384", "SHA-256", "SHA-1"] false
      [("SHA-256", "RSA"), ("SHA-1", "RSA")] [] = Except.ok "SHA-256" :=
  (choose_hash_negotiable "RSA" .TLS_V12 ["SHA-384", "SHA-256", "SHA-1"] false
      [("SHA-256", "RSA"), ("SHA-1", "RSA")] [] rfl).1
    (by decide) ["SHA-384"] "SHA-256" ["SHA-1"] rfl (by decide) (by decide)

/-- Claim C10: under a version with negotiable signature algorithms,
when the advertised list is non-empty but no advertised pair names a
locally allowed hash together with the requested signature algorithm,
`choose_hash` silently returns SHA-1 rather than an error. -/
theorem choose_hash_no_match (sig_algo : String) (v : Protocol_Version)
    (hashes : List String) (fca : Bool)
    (ch cr : List (String × String))
    (hv : v.supports_negotiable_signature_algorithms = true)
    (hne : (if fca then cr else ch) ≠ [])
    (hnm : ∀ x ∈ hashes, supports_pair (if fca then cr else ch) x sig_algo = false) :
    choose_hash sig_algo v hashes fca ch cr = Except.ok "SHA-1" := by
  simp [choose_hash, hv, List.isEmpty_iff, hne,
    first_supported_hash_none hashes _ sig_algo hnm]

theorem choose_hash_no_match_witness :
    choose_hash "RSA" .TLS_V12 ["SHA-384"] false [("SHA-256", "DSA")] []
      = Except.ok "SHA-1" :=
  choose_hash_no_match "RSA" .TLS_V12 ["SHA-384"] false [("SHA-256", "DSA")] []
    rfl (by decide) (by decide)

/-- Claim C4: `understand_sig_format` raises a decode error when, under
a version with negotiable signature algorithms, the wire hash identifier
is empty or the wire signature algorithm differs from the key's; and
when, under any other version, either wire identifier is non-empty. -/
theorem understand_sig_format_checks (v : Protocol_Version)
    (algo hash sig : String) (fca : Bool) :
    (v.supports_negotiable_signature_algorithms = true → hash = "" →
      understand_sig_format v algo hash sig fca
        = .error (.Decoding_Error "Counterparty did not send hash/sig IDS"))
    ∧ (v.supports_negotiable_signature_algorithms = true → sig ≠ algo →
        ∃ m, understand_sig_format v algo hash sig fca
          = .error (.Decoding_Error m))
    ∧ (v.supports_negotiable_signature_algorithms = false →
        (hash ≠ "" ∨ sig ≠ "") →
        understand_sig_format v algo hash sig fca
          = .error (.Decoding_Error "Counterparty sent hash/sig IDs with old version")) := by
  refine ⟨?_, ?_, ?_⟩
  · intro hv hh
    simp [understand_sig_format, hv, hh]
  · intro hv hs
    by_cases hh : hash = ""
    · exact ⟨"Counterparty did not send hash/sig IDS", by simp [understand_sig_format, hv, hh]⟩
    · exact ⟨"Counterparty sent inconsistent key and sig types",
        by simp [understand_sig_format, hv, hh, hs]⟩
  · intro hv hns
    simp [understand_sig_format, hv, hns]

theorem understand_sig_format_checks_witness :
    understand_sig_format .TLS_V12 "RSA" "" "RSA" false
      = .error (.Decoding_Error "Counterparty did not send hash/sig IDS") :=
  (understand_sig_format_checks .TLS_V12 "RSA" "" "RSA" false).1 rfl rfl

/-- Claim C7 counterexample: an RSA key is not a DSA key, yet verifying
an SSLv3 client-authentication signature with it substitutes the "Raw"
hash identifier (the padding comes out as EMSA3(Raw)), so the override
is not restricted to DSA keys. -/
theorem understand_sig_format_raw_rsa_cex :
    understand_sig_format .SSL_V3 "RSA" "" "" true
      = .ok ("EMSA3(" ++ "Raw" ++ ")", .IEEE_1363) := rfl

/-- Claim C7 (amended): in `understand_sig_format` the DSA restriction
on the SSLv3 client-auth "Raw" override separates DSA from ECDSA only:
under SSLv3 client auth a DSA key gets Raw, an ECDSA key does not (it
gets SHA-1), and an RSA key gets Raw through its own branch's
unrestricted override. -/
theorem understand_sig_format_raw_cases :
    understand_sig_format .SSL_V3 "DSA" "" "" true
      = .ok ("EMSA1(" ++ "Raw" ++ ")", .DER_SEQUENCE)
    ∧ understand_sig_format .SSL_V3 "ECDSA" "" "" true
      = .ok ("EMSA1(" ++ "SHA-1" ++ ")", .DER_SEQUENCE)
    ∧ understand_sig_format .SSL_V3 "RSA" "" "" true
      = .ok ("EMSA3(" ++ "Raw" ++ ")", .IEEE_1363) :=
  ⟨rfl, rfl, rfl⟩

/-! ## Session ticket query -/

/-- Claim C5: with a ClientHello stored (a precondition of the query,
which dereferences it), the effective session ticket is the stored
NewSessionTicket's bytes when present and non-empty, and otherwise the
ClientHello's ticket; when the NewSessionTicket is absent or empty and
the ClientHello carries no ticket, the result is empty. -/
theorem session_ticket_spec (nst : Option New_Session_Ticket)
    (ch : Client_Hello) :
    (∀ t, nst = some t → t.ticket ≠ [] →
      session_ticket nst (some ch) = some t.ticket)
    ∧ ((nst = none ∨ ∃ t, nst = some t ∧ t.ticket = []) →
        session_ticket nst (some ch) = some ch.session_ticket)
    ∧ ((nst = none ∨ ∃ t, nst = some t ∧ t.ticket = []) →
        ch.session_ticket = [] →
        session_ticket nst (some ch) = some []) := by
  refine ⟨?_, ?_, ?_⟩
  · intro t ht hne
    subst ht
    simp [session_ticket, List.isEmpty_iff, hne]
  · intro h
    rcases h with h | ⟨t, ht, hte⟩
    · subst h
      rfl
    · subst ht
      simp [session_ticket, List.isEmpty_iff, hte]
  · intro h he
    rcases h with h | ⟨t, ht, hte⟩
    · subst h
      simp [session_ticket, he]
    · subst ht
      simp [session_ticket, List.isEmpty_iff, hte, he]

theorem session_ticket_spec_witness :
    session_ticket (some ⟨[1, 2]⟩) (some ⟨[3]⟩) = some [1, 2] :=
  (session_ticket_spec (some ⟨[1, 2]⟩) ⟨[3]⟩).1 ⟨[1, 2]⟩ rfl (by decide)
